import Mathlib

/-!
Shallow embedding of the `<ar-picker>` cupertino-style wheel picker
(`src/components/ar-picker/ar-picker.ts`) and proofs about its
physics/animation core.

Modelling conventions:
* JavaScript numbers are modelled as rationals (`ℚ`); every arithmetic
  operation used by the picker core (`+`, `-`, `*`, `/`, `%`, `Math.min`,
  `Math.max`, `Math.abs`, `Math.sign`, `Math.floor`, `Math.round`) is exact
  on the inputs the component manipulates, so `ℚ` is a faithful carrier.
* The component instance's private mutable fields become the explicit
  record `PickerState`; each event handler and the per-frame callback
  `_animatePhysics` becomes a pure function from state to state.
* `requestAnimationFrame` / `cancelAnimationFrame` are modelled by a count
  `scheduledFrames` of pending frame callbacks plus the truthiness of the
  stored `this._animating` handle (`animating : Bool`); handle identity is
  abstracted away.  `setTimeout`/`clearTimeout` for the 600ms debounce
  timer of the wheel handler is modelled by the flag `debounceTimer`
  together with a `debounce` firing event.
* The easing function pair comes from the external `bezier-easing` library
  (configured through the `bezierCurve` setter), so it is kept abstract as
  two function-valued fields of `PickerConfig`.
* Throwing the `RangeError` in the defense-mechanism branch of
  `_animatePhysics` is modelled by returning `none`.
-/

attribute [local semireducible] Rat.add Rat.sub Rat.mul Rat.inv

/-- JavaScript `Math.floor` on an exact rational: `⌊q⌋`, implemented
computably as `q.num / q.den` (integer Euclidean division), which agrees
with `Int.floor` by `Rat.floor_def`. -/
def jsFloor (q : ℚ) : ℤ := q.num / q.den

/-- JavaScript remainder `a % b` (sign of the dividend, truncated
division), for the positive divisors used by the picker. -/
def jsMod (a b : ℚ) : ℚ :=
  if 0 ≤ a then a - b * jsFloor (a / b) else a + b * jsFloor (-a / b)

/-- JavaScript `Math.round` (rounds half toward positive infinity). -/
def jsRound (q : ℚ) : ℤ := jsFloor (q + 1 / 2)

/-- JavaScript `Math.sign`. -/
def jsSign (q : ℚ) : ℚ := if 0 < q then 1 else if q < 0 then -1 else 0

/-- `const ITEM_HEIGHT = 24` (ar-picker.ts line 7). -/
def ITEM_HEIGHT : ℚ := 24

/-- `const EFFECTIVELY_ZERO = 1e-10` (ar-picker.ts line 8). -/
def EFFECTIVELY_ZERO : ℚ := 1 / 10 ^ 10

/-- `approxEq(value1, value2)` with the default tolerance
(ar-picker.ts line 10): `Math.abs(value1 - value2) <= delta`. -/
def approxEq (v1 v2 : ℚ) : Bool := |v1 - v2| ≤ EFFECTIVELY_ZERO

/-- Configuration of a picker instance: the `items` property (item values
are opaque; we carry them as integers), the `animationDuration` property,
and the easing pair produced by the `bezierCurve` setter from the external
`bezier-easing` library. -/
structure PickerConfig where
  items : List ℤ
  animationDuration : ℚ
  easingFunction : ℚ → ℚ
  inverseEasingFunction : ℚ → ℚ

/-- The mutable instance fields of the `Picker` class, plus the scheduler
resources and the stream of dispatched `select` events.

* `pendingScroll` / `currentScroll` / `isExternalForceActive` /
  `selectedItem` / `lastTimestamp` are `_pendingScroll`, `_currentScroll`,
  `_isExternalForceActive`, `_selectedItem`, `_lastTimestamp`.
* `animating` is the truthiness of the stored `_animating` frame handle;
  `scheduledFrames` counts the `requestAnimationFrame` callbacks that are
  scheduled and have not yet run.
* `debounceTimer` is the presence of the `_debounceTimer` handle.
* `trackedTouch` is `trackedTouch`, reduced to the remembered `screenY`.
* `events` records, oldest first, the `detail.selected` payload of every
  dispatched `select` event (`none` models an `undefined` payload). -/
structure PickerState where
  pendingScroll : ℚ
  currentScroll : ℚ
  isExternalForceActive : Bool
  selectedItem : Option ℤ
  lastTimestamp : Option ℚ
  animating : Bool
  scheduledFrames : ℕ
  debounceTimer : Bool
  trackedTouch : Option ℚ
  events : List (Option ℤ)
  deriving DecidableEq

/-- State after the constructor ran: `_pendingScroll = 0`,
`_currentScroll = 0`, everything else uninitialized (hence falsy /
`undefined`).  (The constructor's `_is_isExternalForceActiveActive`
assignment writes a misspelled field; the `_isExternalForceActive` field
actually read elsewhere starts out `undefined`, i.e. falsy.) -/
def initState : PickerState :=
  { pendingScroll := 0
    currentScroll := 0
    isExternalForceActive := false
    selectedItem := none
    lastTimestamp := none
    animating := false
    scheduledFrames := 0
    debounceTimer := false
    trackedTouch := none
    events := [] }

/-- JavaScript `this.items[i]` for a possibly out-of-range signed index:
`undefined` (here `none`) when out of range. -/
def itemAt (items : List ℤ) (i : ℤ) : Option ℤ :=
  if 0 ≤ i then items.get? i.toNat else none

/-- `get _selectedIndex()`: `Math.round(this._currentScroll / ITEM_HEIGHT)`. -/
def selectedIndex (s : PickerState) : ℤ := jsRound (s.currentScroll / ITEM_HEIGHT)

/-- `_stopAnimation()`: clear pending displacement and the timestamp
bookkeeping, then cancel the held frame handle if there is one. -/
def stopAnimation (s : PickerState) : PickerState :=
  let s1 : PickerState := { s with pendingScroll := 0, lastTimestamp := none }
  if s1.animating then
    { s1 with scheduledFrames := s1.scheduledFrames - 1, animating := false }
  else s1

/-- `_startPhysicsAnimation()`: `if (!this._animating) requestAnimationFrame(...)`.
Note that the source does not assign `this._animating` here; only the frame
callback itself does. -/
def startPhysicsAnimation (s : PickerState) : PickerState :=
  if s.animating then s else { s with scheduledFrames := s.scheduledFrames + 1 }

/-- `_isWheelStable()`: returns the stability verdict and the state after
the call (the source normalizes `this._pendingScroll` to exactly `0`
inside the `approxEq` branch). -/
def isWheelStable (s : PickerState) : Bool × PickerState :=
  if approxEq s.pendingScroll 0 then
    (approxEq (jsMod s.currentScroll ITEM_HEIGHT) 0 || s.isExternalForceActive,
      { s with pendingScroll := 0 })
  else (false, s)

/-- `_onWheelStable()`: if no external force is active and the item at the
resolved index differs from `_selectedItem`, remember it and dispatch a
`select` event; then `_stopAnimation()`. -/
def onWheelStable (cfg : PickerConfig) (s : PickerState) : PickerState :=
  let sel := itemAt cfg.items (selectedIndex s)
  let s1 : PickerState :=
    if ¬s.isExternalForceActive ∧ s.selectedItem ≠ sel then
      { s with selectedItem := sel, events := s.events ++ [sel] }
    else s
  stopAnimation s1

/-- `_stabilizeWheel()`: set a corrective pending displacement toward the
nearer item boundary and `_startPhysicsAnimation()`. -/
def stabilizeWheel (s : PickerState) : PickerState :=
  let s1 : PickerState :=
    if jsMod s.currentScroll ITEM_HEIGHT > ITEM_HEIGHT / 2 then
      { s with pendingScroll := ITEM_HEIGHT - jsMod s.currentScroll ITEM_HEIGHT }
    else
      { s with pendingScroll := -(jsMod s.currentScroll ITEM_HEIGHT) }
  startPhysicsAnimation s1

/-- The `scrollOffset` computed in the settling branch of
`_animatePhysics` (ar-picker.ts lines 204-207): offset from the previous
stable position in the direction of travel. -/
def scrollOffset (s : PickerState) : ℚ :=
  if s.pendingScroll > 0 then
    jsMod (ITEM_HEIGHT + s.currentScroll) ITEM_HEIGHT
  else
    jsMod (ITEM_HEIGHT - jsMod s.currentScroll ITEM_HEIGHT) ITEM_HEIGHT

/-- `shrunkenAnimationTime` (ar-picker.ts lines 221-225): the nominal
duration, shrunk when the pending displacement exceeds one item height. -/
def shrunkenAnimationTime (cfg : PickerConfig) (p : ℚ) : ℚ :=
  min cfg.animationDuration (cfg.animationDuration * ITEM_HEIGHT / |p|)

/-- The differential distance `dx` applied in one settling frame
(ar-picker.ts lines 227-234): eased increment for the frame's `delta`,
then clamped by `Math.sign(pending) * Math.min(Math.abs(pending), dx)`. -/
def frameDx (cfg : PickerConfig) (s : PickerState) (delta : ℚ) : ℚ :=
  let T := shrunkenAnimationTime cfg s.pendingScroll
  let t := cfg.inverseEasingFunction (scrollOffset s / ITEM_HEIGHT) * T
  let dx := cfg.easingFunction (min 1 ((t + delta) / T)) * ITEM_HEIGHT
      - cfg.easingFunction (min 1 (t / T)) * ITEM_HEIGHT
  jsSign s.pendingScroll * min |s.pendingScroll| dx

/-- The sentinel checks of `_animatePhysics` (ar-picker.ts lines 182-187):
absorb any remaining force at the range boundaries. -/
def sentinelAbsorb (cfg : PickerConfig) (s : PickerState) : PickerState :=
  if (s.currentScroll = 0 ∧ s.pendingScroll < 0)
      ∨ (ITEM_HEIGHT * ((cfg.items.length : ℚ) - 1) ≤ s.currentScroll
          ∧ 0 < s.pendingScroll) then
    { s with pendingScroll := 0 }
  else s

/-- The settling step of `_animatePhysics` (ar-picker.ts lines 200-252):
apply `dx`, clamp `currentScroll` into `[0, ITEM_HEIGHT * items.length]`,
snap to the nearest integer when within tolerance, consume `dx` from the
pending displacement and reschedule the next frame
(`_applyPhysics` only touches the DOM and is omitted). -/
def settlingStep (cfg : PickerConfig) (s : PickerState) (now last : ℚ) : PickerState :=
  let dx := frameDx cfg s (now - last)
  let ns := max 0 (min (ITEM_HEIGHT * (cfg.items.length : ℚ)) (s.currentScroll + dx))
  let ns2 := if approxEq ns ((jsRound ns : ℤ) : ℚ) then ((jsRound ns : ℤ) : ℚ) else ns
  { s with currentScroll := ns2
           pendingScroll := s.pendingScroll - dx
           lastTimestamp := some now
           scheduledFrames := s.scheduledFrames + 1
           animating := true }

/-- `_animatePhysics(now)` (ar-picker.ts lines 172-254), the frame
callback: bootstrap frame, sentinel boundary absorption, stability check
(settle or stabilization pulse), or settling step.  Returns `none` when
the defense-mechanism `RangeError` for a negative `scrollOffset` is
thrown.  The bootstrap check `!this._lastTimestamp` is a JS falsiness
test: it is true not only for the uninitialized/cleared timestamp
(`none`) but also when the stored timestamp is the number `0`, and in
both cases the frame records `now` and reschedules without other work. -/
def animatePhysics (cfg : PickerConfig) (s : PickerState) (now : ℚ) :
    Option PickerState :=
  match s.lastTimestamp with
  | none =>
      some { s with lastTimestamp := some now
                    scheduledFrames := s.scheduledFrames + 1
                    animating := true }
  | some last =>
      if last = 0 then
        some { s with lastTimestamp := some now
                      scheduledFrames := s.scheduledFrames + 1
                      animating := true }
      else
      let s1 := sentinelAbsorb cfg s
      if approxEq s1.pendingScroll 0 then
        let ws := isWheelStable s1
        if ws.1 then some (onWheelStable cfg ws.2)
        else
          let s2 := stabilizeWheel ws.2
          some { s2 with lastTimestamp := some now
                         scheduledFrames := s2.scheduledFrames + 1
                         animating := true }
      else if scrollOffset s1 < 0 then none
      else some (settlingStep cfg s1 now last)

/-- Keyboard keys the picker cares about (`_onKeyDown` ignores the rest). -/
inductive Key
  | arrowUp
  | arrowDown
  | other
  deriving DecidableEq

/-- `_onKeyDown(event)` (ar-picker.ts lines 335-343). -/
def onKeyDown (s : PickerState) (key : Key) : PickerState :=
  match key with
  | .arrowUp =>
      startPhysicsAnimation { s with pendingScroll := s.pendingScroll - ITEM_HEIGHT }
  | .arrowDown =>
      startPhysicsAnimation { s with pendingScroll := s.pendingScroll + ITEM_HEIGHT }
  | .other => s

/-- `_onWheelHandler(event)` (ar-picker.ts lines 374-400).  `smoothScroll`
is the heuristic `event.deltaY === Math.round(event.deltaY)`; an integer
delta is treated as a notched mouse wheel and quantized with
`Math.floor(deltaY / ITEM_HEIGHT) * ITEM_HEIGHT`, a fractional delta as a
trackpad gesture that raises the external force flag and (re)schedules the
600ms debounce timer. -/
def onWheelHandler (s : PickerState) (deltaY : ℚ) : PickerState :=
  if deltaY = ((jsRound deltaY : ℤ) : ℚ) then
    startPhysicsAnimation
      { s with pendingScroll :=
          s.pendingScroll + ((jsFloor (deltaY / ITEM_HEIGHT) : ℤ) : ℚ) * ITEM_HEIGHT }
  else
    startPhysicsAnimation
      { s with isExternalForceActive := true
               debounceTimer := true
               pendingScroll := s.pendingScroll + deltaY }

/-- The debounce timer callback scheduled by `_onWheelHandler`
(ar-picker.ts lines 385-391): clear the force flag and the timer handle,
then stabilize unless the wheel is already stable. -/
def debounceFire (s : PickerState) : PickerState :=
  let s1 : PickerState := { s with isExternalForceActive := false, debounceTimer := false }
  let ws := isWheelStable s1
  if ws.1 then ws.2 else stabilizeWheel ws.2

/-- `_onTouchStart(event)` (ar-picker.ts lines 345-350): begin tracking
the first touch. -/
def onTouchStart (s : PickerState) (y : ℚ) : PickerState :=
  if s.trackedTouch = none then
    { s with trackedTouch := some y, isExternalForceActive := true }
  else s

/-- `_onTouchMove(event)` (ar-picker.ts lines 362-372), for an event whose
changed touches contain the tracked touch, now at screen position `y`. -/
def onTouchMove (s : PickerState) (y : ℚ) : PickerState :=
  match s.trackedTouch with
  | none => s
  | some prev =>
      { startPhysicsAnimation { s with pendingScroll := s.pendingScroll + (prev - y) } with
          trackedTouch := some y }

/-- `_onTouchEnd(event)` (ar-picker.ts lines 352-360); `sameTouch` is
whether the event's changed touches contain the tracked identifier. -/
def onTouchEnd (s : PickerState) (sameTouch : Bool) : PickerState :=
  if s.trackedTouch.isSome && sameTouch then
    startPhysicsAnimation { s with trackedTouch := none, isExternalForceActive := false }
  else s

/-- `_onItemClick(event)` (ar-picker.ts lines 320-333) for a click on the
row at index `k`.  In the rendered layout the clicked row's `offsetTop`
minus the bottom of the leading whitespace element is `k * ITEM_HEIGHT`,
so the displacement added to `_pendingScroll` is
`k * ITEM_HEIGHT - _currentScroll`; a `select` event with the clicked
item is dispatched immediately (and `_selectedItem` is NOT updated). -/
def onItemClick (cfg : PickerConfig) (s : PickerState) (k : ℕ) : PickerState :=
  let s1 := startPhysicsAnimation
    { s with pendingScroll := s.pendingScroll + ((k : ℚ) * ITEM_HEIGHT - s.currentScroll) }
  { s1 with events := s1.events ++ [itemAt cfg.items (k : ℤ)] }

/-- The external stimuli the embedding feeds to the component: DOM input
events, a debounce-timer firing, and an animation-frame delivery at a
given timestamp. -/
inductive InputEvent
  | frame (now : ℚ)
  | key (k : Key)
  | wheel (deltaY : ℚ)
  | touchStart (y : ℚ)
  | touchMove (y : ℚ)
  | touchEnd (sameTouch : Bool)
  | click (k : ℕ)
  | debounce
  deriving DecidableEq

/-- One event delivery.  A `frame` runs `_animatePhysics` only when a
callback is actually pending (consuming it); a `debounce` runs the timer
callback only when the timer is set.  `none` propagates the
`RangeError`. -/
def step (cfg : PickerConfig) (s : PickerState) (e : InputEvent) :
    Option PickerState :=
  match e with
  | .frame now =>
      if 0 < s.scheduledFrames then
        animatePhysics cfg { s with scheduledFrames := s.scheduledFrames - 1 } now
      else some s
  | .key k => some (onKeyDown s k)
  | .wheel d => some (onWheelHandler s d)
  | .touchStart y => some (onTouchStart s y)
  | .touchMove y => some (onTouchMove s y)
  | .touchEnd m => some (onTouchEnd s m)
  | .click k => some (onItemClick cfg s k)
  | .debounce => if s.debounceTimer then some (debounceFire s) else some s

/-- Deliver a sequence of events, stopping at a thrown `RangeError`. -/
def runEvents (cfg : PickerConfig) (s : PickerState) :
    List InputEvent → Option PickerState
  | [] => some s
  | e :: es =>
      match step cfg s e with
      | none => none
      | some s1 => runEvents cfg s1 es

/-- The range invariant claimed for `currentScroll`:
`[0, ITEM_HEIGHT * items.length]`. -/
def ScrollInRange (cfg : PickerConfig) (s : PickerState) : Prop :=
  0 ≤ s.currentScroll ∧ s.currentScroll ≤ ITEM_HEIGHT * (cfg.items.length : ℚ)

/-- A concrete configuration used to instantiate the general theorems:
five distinct items, the default `animationDuration` of 180ms, and the
linear easing curve (the cubic bezier through control points on the
diagonal), which is its own functional inverse. -/
def idCfg : PickerConfig :=
  { items := [10, 11, 12, 13, 14]
    animationDuration := 180
    easingFunction := id
    inverseEasingFunction := id }

/-! ### Arithmetic facts about the JavaScript numeric primitives -/

theorem jsFloor_eq (q : ℚ) : jsFloor q = ⌊q⌋ := Rat.floor_def.symm

theorem jsRound_eq (q : ℚ) : jsRound q = ⌊q + 1 / 2⌋ := jsFloor_eq _

theorem approxEq_iff {a b : ℚ} : approxEq a b = true ↔ |a - b| ≤ EFFECTIVELY_ZERO := by
  simp [approxEq]

theorem approxEq_false_iff {a b : ℚ} :
    approxEq a b = false ↔ ¬|a - b| ≤ EFFECTIVELY_ZERO := by
  simp [approxEq]

theorem jsMod_of_nonneg {a : ℚ} (b : ℚ) (h : 0 ≤ a) :
    jsMod a b = a - b * ⌊a / b⌋ := by
  simp [jsMod, if_pos h, jsFloor_eq]

theorem jsMod_eq_fract {a b : ℚ} (h : 0 ≤ a) (hb : 0 < b) :
    jsMod a b = b * Int.fract (a / b) := by
  rw [jsMod_of_nonneg b h, Int.fract]
  have hb0 : b ≠ 0 := hb.ne'
  field_simp

theorem jsMod_nonneg {a b : ℚ} (h : 0 ≤ a) (hb : 0 < b) : 0 ≤ jsMod a b := by
  rw [jsMod_eq_fract h hb]
  exact mul_nonneg hb.le (Int.fract_nonneg _)

theorem jsMod_lt {a b : ℚ} (h : 0 ≤ a) (hb : 0 < b) : jsMod a b < b := by
  rw [jsMod_eq_fract h hb]
  calc b * Int.fract (a / b) < b * 1 :=
        mul_lt_mul_of_pos_left (Int.fract_lt_one _) hb
    _ = b := mul_one b

theorem jsMod_sub_eq_floor_mul {a b : ℚ} (h : 0 ≤ a) :
    a - jsMod a b = b * ⌊a / b⌋ := by
  rw [jsMod_of_nonneg b h]
  ring

theorem jsMod_natCast_mul (n : ℕ) {b : ℚ} (hb : 0 < b) :
    jsMod (b * (n : ℚ)) b = 0 := by
  have h0 : 0 ≤ b * (n : ℚ) := mul_nonneg hb.le (Nat.cast_nonneg n)
  rw [jsMod_eq_fract h0 hb, mul_div_cancel_left₀ _ hb.ne']
  simp

theorem jsRound_cast_nonneg {q : ℚ} (h : 0 ≤ q) : (0 : ℚ) ≤ ((jsRound q : ℤ) : ℚ) := by
  rw [jsRound_eq]
  have : (0 : ℤ) ≤ ⌊q + 1 / 2⌋ := Int.le_floor.mpr (by push_cast; linarith)
  exact_mod_cast this

theorem jsRound_cast_le {q : ℚ} {m : ℤ} (h : q ≤ (m : ℚ)) :
    ((jsRound q : ℤ) : ℚ) ≤ (m : ℚ) := by
  rw [jsRound_eq]
  have h2 : ⌊q + 1 / 2⌋ ≤ ⌊(m : ℚ) + 1 / 2⌋ := Int.floor_le_floor (by linarith)
  have h3 : ⌊(m : ℚ) + 1 / 2⌋ = m := by
    rw [Int.floor_int_add]
    have : ⌊(1 : ℚ) / 2⌋ = 0 := by rw [← jsFloor_eq]; decide
    omega
  exact_mod_cast h3 ▸ h2

/-! ### Field-tracking lemmas for the state-mutating operations -/

theorem stopAnimation_eq (s : PickerState) :
    stopAnimation s =
      { s with pendingScroll := 0, lastTimestamp := none, animating := false,
               scheduledFrames :=
                 if s.animating then s.scheduledFrames - 1 else s.scheduledFrames } := by
  cases s
  simp only [stopAnimation]
  split <;> simp_all

theorem startPhysicsAnimation_eq (s : PickerState) :
    startPhysicsAnimation s =
      { s with scheduledFrames :=
          if s.animating then s.scheduledFrames else s.scheduledFrames + 1 } := by
  cases s
  simp only [startPhysicsAnimation]
  split <;> simp_all

theorem isWheelStable_snd (s : PickerState) :
    (isWheelStable s).2 =
      { s with pendingScroll :=
          if approxEq s.pendingScroll 0 then 0 else s.pendingScroll } := by
  cases s
  simp only [isWheelStable]
  split <;> simp_all

theorem isWheelStable_fst (s : PickerState) :
    (isWheelStable s).1 =
      (approxEq s.pendingScroll 0
        && (approxEq (jsMod s.currentScroll ITEM_HEIGHT) 0 || s.isExternalForceActive)) := by
  simp only [isWheelStable]
  split <;> simp_all

theorem sentinelAbsorb_eq (cfg : PickerConfig) (s : PickerState) :
    sentinelAbsorb cfg s =
      { s with pendingScroll :=
          if (s.currentScroll = 0 ∧ s.pendingScroll < 0)
              ∨ (ITEM_HEIGHT * ((cfg.items.length : ℚ) - 1) ≤ s.currentScroll
                  ∧ 0 < s.pendingScroll)
          then 0 else s.pendingScroll } := by
  cases s
  simp only [sentinelAbsorb]
  split <;> simp_all

theorem stabilizeWheel_eq (s : PickerState) :
    stabilizeWheel s =
      { s with pendingScroll :=
                 (if jsMod s.currentScroll ITEM_HEIGHT > ITEM_HEIGHT / 2
                   then ITEM_HEIGHT - jsMod s.currentScroll ITEM_HEIGHT
                   else -(jsMod s.currentScroll ITEM_HEIGHT)),
               scheduledFrames :=
                 (if s.animating then s.scheduledFrames else s.scheduledFrames + 1) } := by
  cases s
  simp only [stabilizeWheel, startPhysicsAnimation_eq]
  split <;> simp_all

theorem onWheelStable_eq (cfg : PickerConfig) (s : PickerState) :
    onWheelStable cfg s =
      let sel := itemAt cfg.items (selectedIndex s)
      let emit := ¬s.isExternalForceActive ∧ s.selectedItem ≠ sel
      { s with pendingScroll := 0, lastTimestamp := none, animating := false,
               selectedItem := if emit then sel else s.selectedItem,
               events := if emit then s.events ++ [sel] else s.events,
               scheduledFrames :=
                 if s.animating then s.scheduledFrames - 1 else s.scheduledFrames } := by
  cases s
  simp only [onWheelStable, stopAnimation_eq]
  split <;> simp_all

theorem onWheelStable_currentScroll (cfg : PickerConfig) (s : PickerState) :
    (onWheelStable cfg s).currentScroll = s.currentScroll := by
  rw [onWheelStable_eq]

theorem onWheelStable_pendingScroll (cfg : PickerConfig) (s : PickerState) :
    (onWheelStable cfg s).pendingScroll = 0 := by
  rw [onWheelStable_eq]

theorem onWheelStable_events (cfg : PickerConfig) (s : PickerState) :
    (onWheelStable cfg s).events =
      (if ¬s.isExternalForceActive ∧ s.selectedItem ≠ itemAt cfg.items (selectedIndex s)
        then s.events ++ [itemAt cfg.items (selectedIndex s)] else s.events) := by
  rw [onWheelStable_eq]

theorem stabilizeWheel_currentScroll (s : PickerState) :
    (stabilizeWheel s).currentScroll = s.currentScroll := by
  rw [stabilizeWheel_eq]

theorem stabilizeWheel_events (s : PickerState) :
    (stabilizeWheel s).events = s.events := by
  rw [stabilizeWheel_eq]

theorem isWheelStable_snd_currentScroll (s : PickerState) :
    (isWheelStable s).2.currentScroll = s.currentScroll := by
  rw [isWheelStable_snd]

theorem isWheelStable_snd_events (s : PickerState) :
    (isWheelStable s).2.events = s.events := by
  rw [isWheelStable_snd]

theorem isWheelStable_snd_isExternalForceActive (s : PickerState) :
    (isWheelStable s).2.isExternalForceActive = s.isExternalForceActive := by
  rw [isWheelStable_snd]

theorem isWheelStable_snd_selectedItem (s : PickerState) :
    (isWheelStable s).2.selectedItem = s.selectedItem := by
  rw [isWheelStable_snd]

theorem sentinelAbsorb_currentScroll (cfg : PickerConfig) (s : PickerState) :
    (sentinelAbsorb cfg s).currentScroll = s.currentScroll := by
  rw [sentinelAbsorb_eq]

theorem sentinelAbsorb_isExternalForceActive (cfg : PickerConfig) (s : PickerState) :
    (sentinelAbsorb cfg s).isExternalForceActive = s.isExternalForceActive := by
  rw [sentinelAbsorb_eq]

theorem sentinelAbsorb_events (cfg : PickerConfig) (s : PickerState) :
    (sentinelAbsorb cfg s).events = s.events := by
  rw [sentinelAbsorb_eq]

theorem sentinelAbsorb_selectedItem (cfg : PickerConfig) (s : PickerState) :
    (sentinelAbsorb cfg s).selectedItem = s.selectedItem := by
  rw [sentinelAbsorb_eq]

theorem settlingStep_events (cfg : PickerConfig) (s : PickerState) (now last : ℚ) :
    (settlingStep cfg s now last).events = s.events := rfl

theorem settlingStep_selectedItem (cfg : PickerConfig) (s : PickerState) (now last : ℚ) :
    (settlingStep cfg s now last).selectedItem = s.selectedItem := rfl

theorem settlingStep_isExternalForceActive (cfg : PickerConfig) (s : PickerState)
    (now last : ℚ) :
    (settlingStep cfg s now last).isExternalForceActive = s.isExternalForceActive := rfl

/-! ### The range invariant for `currentScroll` -/

theorem ITEM_HEIGHT_pos : (0 : ℚ) < ITEM_HEIGHT := by norm_num [ITEM_HEIGHT]

theorem range_upper_nonneg (cfg : PickerConfig) :
    (0 : ℚ) ≤ ITEM_HEIGHT * (cfg.items.length : ℚ) :=
  mul_nonneg ITEM_HEIGHT_pos.le (Nat.cast_nonneg _)

theorem settlingStep_scroll_range (cfg : PickerConfig) (s : PickerState) (now last : ℚ) :
    ScrollInRange cfg (settlingStep cfg s now last) := by
  have hM := range_upper_nonneg cfg
  have hcur : (settlingStep cfg s now last).currentScroll =
      (if approxEq
          (max 0 (min (ITEM_HEIGHT * (cfg.items.length : ℚ))
            (s.currentScroll + frameDx cfg s (now - last))))
          ((jsRound (max 0 (min (ITEM_HEIGHT * (cfg.items.length : ℚ))
            (s.currentScroll + frameDx cfg s (now - last)))) : ℤ) : ℚ)
        then ((jsRound (max 0 (min (ITEM_HEIGHT * (cfg.items.length : ℚ))
          (s.currentScroll + frameDx cfg s (now - last)))) : ℤ) : ℚ)
        else max 0 (min (ITEM_HEIGHT * (cfg.items.length : ℚ))
          (s.currentScroll + frameDx cfg s (now - last)))) := rfl
  set ns := max 0 (min (ITEM_HEIGHT * (cfg.items.length : ℚ))
    (s.currentScroll + frameDx cfg s (now - last))) with hns
  have h0 : 0 ≤ ns := le_max_left _ _
  have h1 : ns ≤ ITEM_HEIGHT * (cfg.items.length : ℚ) :=
    max_le hM (min_le_left _ _)
  have hMcast : ITEM_HEIGHT * (cfg.items.length : ℚ)
      = ((24 * (cfg.items.length : ℤ) : ℤ) : ℚ) := by
    push_cast [ITEM_HEIGHT]; ring
  constructor <;> rw [hcur] <;> split_ifs
  · exact jsRound_cast_nonneg h0
  · exact h0
  · rw [hMcast]; exact jsRound_cast_le (hMcast ▸ h1)
  · exact h1

theorem animatePhysics_scroll_range (cfg : PickerConfig) (s : PickerState) (now : ℚ)
    (s1 : PickerState) (hs : ScrollInRange cfg s)
    (h : animatePhysics cfg s now = some s1) : ScrollInRange cfg s1 := by
  have hcur : ∀ t : PickerState, t.currentScroll = s.currentScroll →
      ScrollInRange cfg t := by
    intro t ht
    unfold ScrollInRange
    rw [ht]
    exact hs
  cases hl : s.lastTimestamp with
  | none =>
      simp only [animatePhysics, hl] at h
      obtain rfl := Option.some.inj h
      exact hcur _ rfl
  | some last =>
      simp only [animatePhysics, hl] at h
      split at h
      · obtain rfl := Option.some.inj h
        exact hcur _ rfl
      · split at h
        · split at h
          · obtain rfl := Option.some.inj h
            exact hcur _ (by
              rw [onWheelStable_currentScroll, isWheelStable_snd_currentScroll,
                sentinelAbsorb_currentScroll])
          · obtain rfl := Option.some.inj h
            exact hcur _ (by
              show (stabilizeWheel _).currentScroll = _
              rw [stabilizeWheel_currentScroll, isWheelStable_snd_currentScroll,
                sentinelAbsorb_currentScroll])
        · split at h
          · exact absurd h (by simp)
          · obtain rfl := Option.some.inj h
            exact settlingStep_scroll_range cfg (sentinelAbsorb cfg s) now last

theorem onKeyDown_currentScroll (s : PickerState) (k : Key) :
    (onKeyDown s k).currentScroll = s.currentScroll := by
  cases k <;> simp [onKeyDown, startPhysicsAnimation_eq]

theorem onWheelHandler_currentScroll (s : PickerState) (d : ℚ) :
    (onWheelHandler s d).currentScroll = s.currentScroll := by
  unfold onWheelHandler
  split_ifs <;> simp [startPhysicsAnimation_eq]

theorem onTouchStart_currentScroll (s : PickerState) (y : ℚ) :
    (onTouchStart s y).currentScroll = s.currentScroll := by
  unfold onTouchStart
  split_ifs <;> rfl

theorem onTouchMove_currentScroll (s : PickerState) (y : ℚ) :
    (onTouchMove s y).currentScroll = s.currentScroll := by
  cases htt : s.trackedTouch <;> simp [onTouchMove, htt, startPhysicsAnimation_eq]

theorem onTouchEnd_currentScroll (s : PickerState) (m : Bool) :
    (onTouchEnd s m).currentScroll = s.currentScroll := by
  unfold onTouchEnd
  split_ifs <;> simp [startPhysicsAnimation_eq]

theorem onItemClick_currentScroll (cfg : PickerConfig) (s : PickerState) (k : ℕ) :
    (onItemClick cfg s k).currentScroll = s.currentScroll := by
  simp [onItemClick, startPhysicsAnimation_eq]

theorem debounceFire_currentScroll (s : PickerState) :
    (debounceFire s).currentScroll = s.currentScroll := by
  simp only [debounceFire]
  split
  · rw [isWheelStable_snd_currentScroll]
  · rw [stabilizeWheel_currentScroll, isWheelStable_snd_currentScroll]

theorem step_scroll_range (cfg : PickerConfig) (s : PickerState) (e : InputEvent)
    (s1 : PickerState) (hs : ScrollInRange cfg s) (h : step cfg s e = some s1) :
    ScrollInRange cfg s1 := by
  have hcur : ∀ t : PickerState, t.currentScroll = s.currentScroll →
      ScrollInRange cfg t := by
    intro t ht
    unfold ScrollInRange
    rw [ht]
    exact hs
  cases e with
  | frame now =>
      simp only [step] at h
      split at h
      · exact animatePhysics_scroll_range cfg
          { s with scheduledFrames := s.scheduledFrames - 1 } now s1 (hcur _ rfl) h
      · obtain rfl := Option.some.inj h
        exact hs
  | key k =>
      simp only [step] at h
      obtain rfl := Option.some.inj h
      exact hcur _ (onKeyDown_currentScroll s k)
  | wheel d =>
      simp only [step] at h
      obtain rfl := Option.some.inj h
      exact hcur _ (onWheelHandler_currentScroll s d)
  | touchStart y =>
      simp only [step] at h
      obtain rfl := Option.some.inj h
      exact hcur _ (onTouchStart_currentScroll s y)
  | touchMove y =>
      simp only [step] at h
      obtain rfl := Option.some.inj h
      exact hcur _ (onTouchMove_currentScroll s y)
  | touchEnd m =>
      simp only [step] at h
      obtain rfl := Option.some.inj h
      exact hcur _ (onTouchEnd_currentScroll s m)
  | click k =>
      simp only [step] at h
      obtain rfl := Option.some.inj h
      exact hcur _ (onItemClick_currentScroll cfg s k)
  | debounce =>
      simp only [step] at h
      split at h
      · obtain rfl := Option.some.inj h
        exact hcur _ (debounceFire_currentScroll s)
      · obtain rfl := Option.some.inj h
        exact hs

theorem runEvents_scroll_range (cfg : PickerConfig) (es : List InputEvent)
    (s s1 : PickerState) (hs : ScrollInRange cfg s)
    (h : runEvents cfg s es = some s1) : ScrollInRange cfg s1 := by
  induction es generalizing s with
  | nil =>
      simp only [runEvents] at h
      obtain rfl := Option.some.inj h
      exact hs
  | cons e es ih =>
      simp only [runEvents] at h
      cases hstep : step cfg s e with
      | none => rw [hstep] at h; exact absurd h (by simp)
      | some s2 =>
          rw [hstep] at h
          exact ih s2 (step_scroll_range cfg s e s2 hs hstep) h

theorem initState_scroll_range (cfg : PickerConfig) : ScrollInRange cfg initState :=
  ⟨le_refl 0, range_upper_nonneg cfg⟩

theorem animatePhysics_bootstrap (cfg : PickerConfig) (s : PickerState) (now : ℚ)
    (hl : s.lastTimestamp = none) :
    animatePhysics cfg s now =
      some { s with lastTimestamp := some now,
                    scheduledFrames := s.scheduledFrames + 1, animating := true } := by
  simp only [animatePhysics, hl]

theorem animatePhysics_bootstrap_zero (cfg : PickerConfig) (s : PickerState) (now : ℚ)
    (hl : s.lastTimestamp = some 0) :
    animatePhysics cfg s now =
      some { s with lastTimestamp := some now,
                    scheduledFrames := s.scheduledFrames + 1, animating := true } := by
  simp only [animatePhysics, hl]
  rw [if_pos trivial]

theorem animatePhysics_stable (cfg : PickerConfig) (s : PickerState) (now last : ℚ)
    (hl : s.lastTimestamp = some last) (hnz : last ≠ 0)
    (hpz : approxEq (sentinelAbsorb cfg s).pendingScroll 0 = true)
    (hst : (isWheelStable (sentinelAbsorb cfg s)).1 = true) :
    animatePhysics cfg s now
      = some (onWheelStable cfg (isWheelStable (sentinelAbsorb cfg s)).2) := by
  simp only [animatePhysics, hl]
  rw [if_neg hnz, if_pos hpz, if_pos hst]

theorem animatePhysics_settling (cfg : PickerConfig) (s : PickerState) (now last : ℚ)
    (hl : s.lastTimestamp = some last) (hnz : last ≠ 0)
    (hpz : approxEq (sentinelAbsorb cfg s).pendingScroll 0 = false)
    (hoff : ¬ scrollOffset (sentinelAbsorb cfg s) < 0) :
    animatePhysics cfg s now
      = some (settlingStep cfg (sentinelAbsorb cfg s) now last) := by
  simp only [animatePhysics, hl]
  rw [if_neg hnz, if_neg (by simp [hpz]), if_neg hoff]

theorem animatePhysics_absorbs_at_bound (cfg : PickerConfig) (s : PickerState)
    (now last : ℚ) (hl : s.lastTimestamp = some last) (hnz : last ≠ 0)
    (hb : (s.currentScroll = 0 ∧ s.pendingScroll < 0)
        ∨ (s.currentScroll = ITEM_HEIGHT * (cfg.items.length : ℚ) ∧ 0 < s.pendingScroll)) :
    (animatePhysics cfg s now).map PickerState.currentScroll = some s.currentScroll
    ∧ (animatePhysics cfg s now).map PickerState.pendingScroll = some 0 := by
  have hsentp : (sentinelAbsorb cfg s).pendingScroll = 0 := by
    rw [sentinelAbsorb_eq]
    show (if (s.currentScroll = 0 ∧ s.pendingScroll < 0)
        ∨ (ITEM_HEIGHT * ((cfg.items.length : ℚ) - 1) ≤ s.currentScroll
            ∧ 0 < s.pendingScroll) then (0:ℚ) else s.pendingScroll) = 0
    rw [if_pos]
    rcases hb with ⟨h1, h2⟩ | ⟨h1, h2⟩
    · exact Or.inl ⟨h1, h2⟩
    · refine Or.inr ⟨?_, h2⟩
      rw [h1]
      exact mul_le_mul_of_nonneg_left (by linarith) ITEM_HEIGHT_pos.le
  have haligned : jsMod s.currentScroll ITEM_HEIGHT = 0 := by
    rcases hb with ⟨h1, _⟩ | ⟨h1, _⟩
    · rw [h1]; decide
    · rw [h1]; exact jsMod_natCast_mul cfg.items.length ITEM_HEIGHT_pos
  have hpz : approxEq (sentinelAbsorb cfg s).pendingScroll 0 = true := by
    rw [hsentp]; decide
  have h00 : approxEq (0:ℚ) 0 = true := by decide
  have hst : (isWheelStable (sentinelAbsorb cfg s)).1 = true := by
    rw [isWheelStable_fst, hsentp, sentinelAbsorb_currentScroll, haligned]
    simp [h00]
  rw [animatePhysics_stable cfg s now last hl hnz hpz hst]
  constructor
  · show some (onWheelStable cfg (isWheelStable (sentinelAbsorb cfg s)).2).currentScroll
        = some s.currentScroll
    rw [onWheelStable_currentScroll, isWheelStable_snd_currentScroll,
      sentinelAbsorb_currentScroll]
  · show some (onWheelStable cfg (isWheelStable (sentinelAbsorb cfg s)).2).pendingScroll
        = some (0:ℚ)
    rw [onWheelStable_pendingScroll]

theorem scrollOffset_nonneg (s : PickerState) (h : 0 ≤ s.currentScroll) :
    0 ≤ scrollOffset s := by
  unfold scrollOffset
  have h24 := ITEM_HEIGHT_pos
  split_ifs with hp
  · exact jsMod_nonneg (by linarith) h24
  · have h1 := jsMod_nonneg h h24
    have h2 := jsMod_lt h h24
    exact jsMod_nonneg (by linarith) h24

theorem scrollOffset_lt (s : PickerState) (h : 0 ≤ s.currentScroll) :
    scrollOffset s < ITEM_HEIGHT := by
  unfold scrollOffset
  have h24 := ITEM_HEIGHT_pos
  split_ifs with hp
  · exact jsMod_lt (by linarith) h24
  · have h1 := jsMod_nonneg h h24
    have h2 := jsMod_lt h h24
    exact jsMod_lt (by linarith) h24

set_option maxRecDepth 200000

set_option maxHeartbeats 1000000

/-- C1: for every sequence of input events and frame steps from the initial
state, `currentScroll` stays inside `[0, ITEM_HEIGHT * items.length]` (each
settling-frame write clamps into that range), and a frame step that actually
processes (its stored timestamp is not JS-falsy, so the frame is not a
bootstrap) taken at a range bound with pending displacement pushing past
that bound leaves `currentScroll` at the bound and absorbs the pending
displacement to zero. -/
theorem scroll_range_invariant (cfg : PickerConfig) :
    (∀ es s1, runEvents cfg initState es = some s1 → ScrollInRange cfg s1)
    ∧ (∀ (s : PickerState) (now last : ℚ), s.lastTimestamp = some last → last ≠ 0 →
        ((s.currentScroll = 0 ∧ s.pendingScroll < 0)
          ∨ (s.currentScroll = ITEM_HEIGHT * (cfg.items.length : ℚ)
              ∧ 0 < s.pendingScroll)) →
        (animatePhysics cfg s now).map PickerState.currentScroll = some s.currentScroll
        ∧ (animatePhysics cfg s now).map PickerState.pendingScroll = some 0) := by
  constructor
  · intro es s1 h
    exact runEvents_scroll_range cfg es initState s1 (initState_scroll_range cfg) h
  · intro s now last hl hnz hb
    exact animatePhysics_absorbs_at_bound cfg s now last hl hnz hb

/-- A trace used to instantiate `scroll_range_invariant`. -/
def c1Trace : List InputEvent := [.key .arrowDown, .frame 100, .frame 300, .frame 500]

/-- A state sitting at the upper range bound with outward pending force,
whose stored frame timestamp is a truthy (nonzero) number. -/
def atTopState : PickerState :=
  { initState with currentScroll := 120, pendingScroll := 5,
                   lastTimestamp := some 8, animating := true }

theorem scroll_range_invariant_witness :
    ScrollInRange idCfg ((runEvents idCfg initState c1Trace).getD initState)
    ∧ (animatePhysics idCfg atTopState 16).map PickerState.currentScroll
        = some atTopState.currentScroll
    ∧ (animatePhysics idCfg atTopState 16).map PickerState.pendingScroll = some 0 := by
  refine ⟨?_, ?_⟩
  · obtain ⟨s1, hs1⟩ : ∃ s1, runEvents idCfg initState c1Trace = some s1 := ⟨_, rfl⟩
    rw [hs1]
    exact (scroll_range_invariant idCfg).1 c1Trace s1 hs1
  · exact (scroll_range_invariant idCfg).2 atTopState 16 8 rfl (by norm_num)
      (Or.inr ⟨by decide, by decide⟩)

/-- C6: whenever `currentScroll` lies in `[0, ITEM_HEIGHT * items.length]`,
the `scrollOffset` of the settling branch is non-negative, so the
defense-mechanism `RangeError` branch of `_animatePhysics` (modelled by the
`none` result) is unreachable. -/
theorem scroll_offset_nonneg_no_error (cfg : PickerConfig) (s : PickerState)
    (h0 : 0 ≤ s.currentScroll)
    (h1 : s.currentScroll ≤ ITEM_HEIGHT * (cfg.items.length : ℚ)) :
    0 ≤ scrollOffset s ∧ ∀ now, animatePhysics cfg s now ≠ none := by
  refine ⟨scrollOffset_nonneg s h0, ?_⟩
  intro now hnone
  cases hl : s.lastTimestamp with
  | none =>
      rw [animatePhysics_bootstrap cfg s now hl] at hnone
      exact Option.noConfusion hnone
  | some last =>
      simp only [animatePhysics, hl] at hnone
      have hoff : 0 ≤ scrollOffset (sentinelAbsorb cfg s) := by
        apply scrollOffset_nonneg
        rw [sentinelAbsorb_currentScroll]
        exact h0
      split at hnone
      · exact Option.noConfusion hnone
      · split at hnone
        · split at hnone <;> exact Option.noConfusion hnone
        · split at hnone
          next hlt => exact absurd hlt (not_lt.mpr hoff)
          next => exact Option.noConfusion hnone

theorem scroll_offset_nonneg_no_error_witness :
    0 ≤ scrollOffset { initState with pendingScroll := 24 }
    ∧ animatePhysics idCfg { initState with pendingScroll := 24 } 0 ≠ none := by
  have h := scroll_offset_nonneg_no_error idCfg { initState with pendingScroll := 24 }
    (by decide) (by decide)
  exact ⟨h.1, h.2 0⟩

theorem onWheelStable_events_external (cfg : PickerConfig) (t : PickerState)
    (h : t.isExternalForceActive = true) :
    (onWheelStable cfg t).events = t.events := by
  rw [onWheelStable_events, if_neg]
  rintro ⟨hne, _⟩
  exact hne h

/-- C3: while `isExternalForceActive` is true, a settle (and hence any frame
step, which is the only caller of the settle path) dispatches no `select`
event, even when `currentScroll` is exactly aligned and the pending
displacement is zero. -/
theorem external_force_suppresses_emission (cfg : PickerConfig) (s : PickerState)
    (hext : s.isExternalForceActive = true) :
    (onWheelStable cfg s).events = s.events
    ∧ ∀ now s1, animatePhysics cfg s now = some s1 → s1.events = s.events := by
  refine ⟨onWheelStable_events_external cfg s hext, ?_⟩
  intro now s1 h
  cases hl : s.lastTimestamp with
  | none =>
      rw [animatePhysics_bootstrap cfg s now hl] at h
      obtain rfl := Option.some.inj h
      rfl
  | some last =>
      simp only [animatePhysics, hl] at h
      split at h
      · obtain rfl := Option.some.inj h
        rfl
      · split at h
        · split at h
          · obtain rfl := Option.some.inj h
            rw [onWheelStable_events_external cfg _ (by
                rw [isWheelStable_snd_isExternalForceActive,
                  sentinelAbsorb_isExternalForceActive]
                exact hext),
              isWheelStable_snd_events, sentinelAbsorb_events]
          · obtain rfl := Option.some.inj h
            dsimp only
            rw [stabilizeWheel_events, isWheelStable_snd_events, sentinelAbsorb_events]
        · split at h
          · exact Option.noConfusion h
          · obtain rfl := Option.some.inj h
            rw [settlingStep_events, sentinelAbsorb_events]

/-- A state with an active external force, aligned at item boundary 1. -/
def extState : PickerState :=
  { initState with isExternalForceActive := true, currentScroll := 24 }

theorem external_force_suppresses_emission_witness :
    (onWheelStable idCfg extState).events = extState.events
    ∧ ((animatePhysics idCfg extState 0).getD initState).events = extState.events := by
  have h := external_force_suppresses_emission idCfg extState rfl
  refine ⟨h.1, ?_⟩
  obtain ⟨s1, hs1⟩ : ∃ s1, animatePhysics idCfg extState 0 = some s1 := ⟨_, rfl⟩
  rw [hs1]
  exact h.2 0 s1 hs1

/-- C2 (amended): within one settle (`_onWheelStable` call) at most one
`select` event is dispatched, and one is dispatched exactly when no external
force is active and the item at the resolved index differs from the
remembered `_selectedItem` — which only settles update; a click emission
does not update it. -/
theorem settle_emission_cases (cfg : PickerConfig) (s : PickerState) :
    (onWheelStable cfg s).events =
      (if ¬s.isExternalForceActive ∧ s.selectedItem ≠ itemAt cfg.items (selectedIndex s)
        then s.events ++ [itemAt cfg.items (selectedIndex s)] else s.events)
    ∧ (onWheelStable cfg s).events.length ≤ s.events.length + 1 := by
  refine ⟨onWheelStable_events cfg s, ?_⟩
  rw [onWheelStable_events cfg s]
  split_ifs <;> simp

/-- C2 counterexample: clicking item 1 emits `some 11` (the last emitted
selection), yet the subsequent settle at index 1 emits `some 11` again,
because `_onItemClick` does not update `_selectedItem`.  This falsifies the
claim that a settle emits only when the resolved item differs from the last
emitted selection "including a selection previously emitted by a click on
the same item".  (Frame timestamps are nonzero, so only the first frame is
a bootstrap.) -/
theorem settle_reemits_after_click :
    (runEvents idCfg initState [.click 1, .frame 100, .frame 300, .frame 500]).map
        PickerState.events = some [some 11, some 11] := by
  decide

/-- C5 (code bug evidence): after one ArrowDown from the initial state a
frame callback is scheduled (`scheduledFrames = 1`) but `_animating` is
still unset, so a second `_startPhysicsAnimation` — e.g. from a second
ArrowDown — schedules a second concurrent frame callback instead of being a
no-op. -/
theorem duplicate_frame_scheduling :
    (onKeyDown initState Key.arrowDown).scheduledFrames = 1
    ∧ (onKeyDown initState Key.arrowDown).animating = false
    ∧ (startPhysicsAnimation (onKeyDown initState Key.arrowDown)).scheduledFrames = 2
    ∧ (onKeyDown (onKeyDown initState Key.arrowDown) Key.arrowDown).scheduledFrames
        = 2 := by
  decide

/-- C7: the stabilization pulse leaves `currentScroll` unchanged and sets
`pendingScroll` to the signed distance to the nearer item boundary:
afterwards `currentScroll + pendingScroll` is an integer multiple of
`ITEM_HEIGHT` and `|pendingScroll| ≤ ITEM_HEIGHT / 2`. -/
theorem stabilize_snaps_to_boundary (s : PickerState) (h0 : 0 ≤ s.currentScroll)
    (hp : approxEq s.pendingScroll 0 = true)
    (hm : jsMod s.currentScroll ITEM_HEIGHT ≠ 0) :
    (stabilizeWheel s).currentScroll = s.currentScroll
    ∧ (∃ k : ℤ, (stabilizeWheel s).currentScroll + (stabilizeWheel s).pendingScroll
        = ITEM_HEIGHT * (k : ℚ))
    ∧ |(stabilizeWheel s).pendingScroll| ≤ ITEM_HEIGHT / 2 := by
  have hr0 : 0 ≤ jsMod s.currentScroll ITEM_HEIGHT := jsMod_nonneg h0 ITEM_HEIGHT_pos
  have hr1 : jsMod s.currentScroll ITEM_HEIGHT < ITEM_HEIGHT := jsMod_lt h0 ITEM_HEIGHT_pos
  have hsub : s.currentScroll - jsMod s.currentScroll ITEM_HEIGHT
      = ITEM_HEIGHT * ⌊s.currentScroll / ITEM_HEIGHT⌋ := jsMod_sub_eq_floor_mul h0
  have hps : (stabilizeWheel s).pendingScroll =
      (if jsMod s.currentScroll ITEM_HEIGHT > ITEM_HEIGHT / 2
        then ITEM_HEIGHT - jsMod s.currentScroll ITEM_HEIGHT
        else -(jsMod s.currentScroll ITEM_HEIGHT)) := by
    rw [stabilizeWheel_eq]
  refine ⟨stabilizeWheel_currentScroll s, ?_, ?_⟩
  · rw [stabilizeWheel_currentScroll, hps]
    split_ifs with hgt
    · exact ⟨⌊s.currentScroll / ITEM_HEIGHT⌋ + 1, by push_cast; linarith⟩
    · exact ⟨⌊s.currentScroll / ITEM_HEIGHT⌋, by push_cast; linarith⟩
  · rw [hps]
    split_ifs with hgt
    · rw [abs_of_pos (by linarith)]
      linarith
    · rw [abs_of_nonpos (by linarith)]
      push_neg at hgt
      linarith

/-- A state resting off-grid at scroll position 30. -/
def offGridState : PickerState := { initState with currentScroll := 30 }

theorem stabilize_snaps_to_boundary_witness :
    (stabilizeWheel offGridState).currentScroll = offGridState.currentScroll
    ∧ (∃ k : ℤ, (stabilizeWheel offGridState).currentScroll
        + (stabilizeWheel offGridState).pendingScroll = ITEM_HEIGHT * (k : ℚ))
    ∧ |(stabilizeWheel offGridState).pendingScroll| ≤ ITEM_HEIGHT / 2 :=
  stabilize_snaps_to_boundary offGridState (by decide) (by decide) (by decide)

/-- A state whose pending displacement is nonzero but within the
`EFFECTIVELY_ZERO` tolerance. -/
def c9State : PickerState := { initState with pendingScroll := 1 / 10 ^ 11 }

/-- C9 counterexample: on a state with `pendingScroll = 1e-11` the stability
check returns `true` but also writes `pendingScroll := 0`, so it is not a
side-effect-free function of the state: the claim that it "leaves every
field of the Scroll State unchanged" fails. -/
theorem wheel_stable_check_mutates :
    (isWheelStable c9State).1 = true
    ∧ c9State.pendingScroll ≠ 0
    ∧ (isWheelStable c9State).2.pendingScroll = 0 := by
  decide

/-- C9 (amended): the stability verdict is the claimed pure predicate
(`pendingScroll ≈ 0` and (`currentScroll mod ITEM_HEIGHT ≈ 0` or an external
force is active)), and the check leaves every field unchanged EXCEPT that a
`pendingScroll` within tolerance of zero is normalized to exactly zero. -/
theorem wheel_stable_check_behavior (s : PickerState) :
    (isWheelStable s).1
      = (approxEq s.pendingScroll 0
          && (approxEq (jsMod s.currentScroll ITEM_HEIGHT) 0
              || s.isExternalForceActive))
    ∧ (isWheelStable s).2
        = { s with pendingScroll :=
              if approxEq s.pendingScroll 0 then 0 else s.pendingScroll } := by
  refine ⟨isWheelStable_fst s, ?_⟩
  rw [isWheelStable_snd]

/-- C10: for an integer wheel delta the handler adds
`floor(deltaY / ITEM_HEIGHT) * ITEM_HEIGHT` to `pendingScroll`; hence an
integer delta strictly between 0 and `ITEM_HEIGHT` leaves `pendingScroll`
unchanged, while an integer delta in `[-ITEM_HEIGHT, 0)` subtracts a full
`ITEM_HEIGHT` — equal-magnitude notches scroll asymmetrically. -/
theorem wheel_integer_quantization (s : PickerState) (d : ℚ)
    (hint : d = ((jsRound d : ℤ) : ℚ)) :
    (onWheelHandler s d).pendingScroll
      = s.pendingScroll + ((jsFloor (d / ITEM_HEIGHT) : ℤ) : ℚ) * ITEM_HEIGHT
    ∧ (0 < d → d < ITEM_HEIGHT → (onWheelHandler s d).pendingScroll = s.pendingScroll)
    ∧ (-ITEM_HEIGHT ≤ d → d < 0 →
        (onWheelHandler s d).pendingScroll = s.pendingScroll - ITEM_HEIGHT) := by
  have hbase : (onWheelHandler s d).pendingScroll
      = s.pendingScroll + ((jsFloor (d / ITEM_HEIGHT) : ℤ) : ℚ) * ITEM_HEIGHT := by
    unfold onWheelHandler
    rw [if_pos hint, startPhysicsAnimation_eq]
  refine ⟨hbase, ?_, ?_⟩
  · intro hd0 hd24
    rw [hbase, jsFloor_eq]
    have hz : ⌊d / ITEM_HEIGHT⌋ = 0 := by
      rw [Int.floor_eq_zero_iff, Set.mem_Ico]
      exact ⟨div_nonneg hd0.le ITEM_HEIGHT_pos.le, (div_lt_one ITEM_HEIGHT_pos).mpr hd24⟩
    rw [hz]
    push_cast
    ring
  · intro hdm hd0
    rw [hbase, jsFloor_eq]
    have hz : ⌊d / ITEM_HEIGHT⌋ = -1 := by
      rw [Int.floor_eq_iff]
      constructor
      · rw [le_div_iff ITEM_HEIGHT_pos]
        push_cast
        linarith
      · push_cast
        rw [div_lt_iff ITEM_HEIGHT_pos]
        linarith
    rw [hz]
    push_cast
    ring

theorem wheel_integer_quantization_witness :
    (onWheelHandler initState (-12)).pendingScroll
      = initState.pendingScroll
        + ((jsFloor ((-12) / ITEM_HEIGHT) : ℤ) : ℚ) * ITEM_HEIGHT
    ∧ (0 < (-12 : ℚ) → (-12 : ℚ) < ITEM_HEIGHT →
        (onWheelHandler initState (-12)).pendingScroll = initState.pendingScroll)
    ∧ (-ITEM_HEIGHT ≤ (-12 : ℚ) → (-12 : ℚ) < 0 →
        (onWheelHandler initState (-12)).pendingScroll
          = initState.pendingScroll - ITEM_HEIGHT) :=
  wheel_integer_quantization initState (-12) (by decide)

theorem signed_clamp (p d : ℚ) (hp : p ≠ 0) (hd : 0 < d) :
    |jsSign p * min |p| d| ≤ |p|
    ∧ jsSign (jsSign p * min |p| d) = jsSign p
    ∧ |p - jsSign p * min |p| d| ≤ |p|
    ∧ 0 ≤ (p - jsSign p * min |p| d) * p := by
  rcases lt_or_gt_of_ne hp with hneg | hpos
  · have hsg : jsSign p = -1 := by
      unfold jsSign
      rw [if_neg (by linarith), if_pos hneg]
    have habs : |p| = -p := abs_of_neg hneg
    rw [hsg, habs]
    have hm0 : 0 < min (-p) d := lt_min (by linarith) hd
    have hm1 : min (-p) d ≤ -p := min_le_left _ _
    refine ⟨?_, ?_, ?_, ?_⟩
    · rw [abs_of_nonpos (by nlinarith)]
      linarith
    · have hlt : (-1 : ℚ) * min (-p) d < 0 := by nlinarith
      unfold jsSign
      rw [if_neg (by linarith), if_pos hlt]
    · rw [show p - (-1) * min (-p) d = p + min (-p) d from by ring,
        abs_of_nonpos (by linarith)]
      linarith
    · rw [show (p - (-1) * min (-p) d) * p = (p + min (-p) d) * p from by ring]
      nlinarith
  · have hsg : jsSign p = 1 := by
      unfold jsSign
      rw [if_pos hpos]
    have habs : |p| = p := abs_of_pos hpos
    rw [hsg, habs]
    have hm0 : 0 < min p d := lt_min hpos hd
    have hm1 : min p d ≤ p := min_le_left _ _
    refine ⟨?_, ?_, ?_, ?_⟩
    · rw [abs_of_nonneg (by linarith)]
      linarith
    · have hlt : (0 : ℚ) < 1 * min p d := by linarith
      unfold jsSign
      rw [if_pos hlt]
    · rw [show p - 1 * min p d = p - min p d from by ring,
        abs_of_nonneg (by linarith)]
      linarith
    · rw [show (p - 1 * min p d) * p = (p - min p d) * p from by ring]
      nlinarith

/-- C8: in a non-bootstrap settling frame (pending displacement not ≈ 0),
given a strictly monotone easing curve on `[0, 1]`, an inverse easing curve
mapping `[0, 1)` into `[0, 1)`, a positive nominal duration and a positive
frame delta, the applied increment `dx` satisfies `|dx| ≤ |pendingScroll|`
and `sign dx = sign pendingScroll`; hence `pendingScroll - dx` does not grow
in magnitude and never changes sign. -/
theorem frame_dx_no_overshoot (cfg : PickerConfig) (s : PickerState) (delta : ℚ)
    (hmono : ∀ x y : ℚ, 0 ≤ x → x < y → y ≤ 1 →
      cfg.easingFunction x < cfg.easingFunction y)
    (hinv : ∀ x : ℚ, 0 ≤ x → x < 1 →
      0 ≤ cfg.inverseEasingFunction x ∧ cfg.inverseEasingFunction x < 1)
    (hdur : 0 < cfg.animationDuration)
    (hcur : 0 ≤ s.currentScroll)
    (hp : approxEq s.pendingScroll 0 = false)
    (hdelta : 0 < delta) :
    |frameDx cfg s delta| ≤ |s.pendingScroll|
    ∧ jsSign (frameDx cfg s delta) = jsSign s.pendingScroll
    ∧ |s.pendingScroll - frameDx cfg s delta| ≤ |s.pendingScroll|
    ∧ 0 ≤ (s.pendingScroll - frameDx cfg s delta) * s.pendingScroll := by
  have hpne : s.pendingScroll ≠ 0 := by
    intro h
    rw [approxEq_false_iff] at hp
    apply hp
    rw [h]
    norm_num [EFFECTIVELY_ZERO]
  have hpabs : 0 < |s.pendingScroll| := abs_pos.mpr hpne
  set T := shrunkenAnimationTime cfg s.pendingScroll with hT_def
  have hT : 0 < T := by
    rw [hT_def]
    unfold shrunkenAnimationTime
    exact lt_min hdur (div_pos (mul_pos hdur ITEM_HEIGHT_pos) hpabs)
  have hoff0 : 0 ≤ scrollOffset s := scrollOffset_nonneg s hcur
  have hoff1 : scrollOffset s < ITEM_HEIGHT := scrollOffset_lt s hcur
  set x := scrollOffset s / ITEM_HEIGHT with hx_def
  have hx0 : 0 ≤ x := div_nonneg hoff0 ITEM_HEIGHT_pos.le
  have hx1 : x < 1 := (div_lt_one ITEM_HEIGHT_pos).mpr hoff1
  obtain ⟨hi0, hi1⟩ := hinv x hx0 hx1
  set t := cfg.inverseEasingFunction x * T with ht_def
  have ht0 : 0 ≤ t := mul_nonneg hi0 hT.le
  have htT : t < T := by
    rw [ht_def]
    calc cfg.inverseEasingFunction x * T < 1 * T := mul_lt_mul_of_pos_right hi1 hT
      _ = T := one_mul T
  set a := min 1 (t / T) with ha_def
  set b := min 1 ((t + delta) / T) with hb_def
  have haval : a = t / T := min_eq_right ((div_lt_one hT).mpr htT).le
  have ha0 : 0 ≤ a := by
    rw [haval]
    exact div_nonneg ht0 hT.le
  have hb1 : b ≤ 1 := min_le_left _ _
  have hab : a < b := by
    rcases le_or_lt 1 ((t + delta) / T) with h1 | h1
    · rw [hb_def, min_eq_left h1, haval]
      exact (div_lt_one hT).mpr htT
    · rw [hb_def, min_eq_right h1.le, haval]
      exact (div_lt_div_right hT).mpr (by linarith)
  have hdx0 : 0 < cfg.easingFunction b * ITEM_HEIGHT
      - cfg.easingFunction a * ITEM_HEIGHT := by
    have hlt := hmono a b ha0 hab hb1
    nlinarith [ITEM_HEIGHT_pos]
  exact signed_clamp s.pendingScroll
    (cfg.easingFunction b * ITEM_HEIGHT - cfg.easingFunction a * ITEM_HEIGHT) hpne hdx0

/-- A state with a full item of pending displacement, as left by one
ArrowDown. -/
def c8State : PickerState := { initState with pendingScroll := 24 }

theorem frame_dx_no_overshoot_witness :
    |frameDx idCfg c8State 16| ≤ |c8State.pendingScroll|
    ∧ jsSign (frameDx idCfg c8State 16) = jsSign c8State.pendingScroll
    ∧ |c8State.pendingScroll - frameDx idCfg c8State 16| ≤ |c8State.pendingScroll|
    ∧ 0 ≤ (c8State.pendingScroll - frameDx idCfg c8State 16) * c8State.pendingScroll :=
  frame_dx_no_overshoot idCfg c8State 16
    (fun _ _ _ hxy _ => hxy)
    (fun _ hx0 hx1 => ⟨hx0, hx1⟩)
    (by decide) (by decide) (by decide) (by decide)

/-- The C4 event trace: one ArrowDown, then frames at 100, 300 and 500 ms
(nonzero, strictly increasing timestamps, so only the first frame is a
bootstrap). -/
def c4Trace : List InputEvent := [.key .arrowDown, .frame 100, .frame 300, .frame 500]

/-- State after the ArrowDown handler ran. -/
def c4afterKey : PickerState := { initState with pendingScroll := 24, scheduledFrames := 1 }

/-- State after the bootstrap frame at timestamp 100. -/
def c4afterBoot : PickerState :=
  { initState with pendingScroll := 24, scheduledFrames := 1,
                   lastTimestamp := some 100, animating := true }

/-- The state on which the frame-300 callback body runs. -/
def c4Entering : PickerState :=
  { initState with pendingScroll := 24, lastTimestamp := some 100, animating := true }

/-- State after the settling frame at timestamp 300. -/
def c4afterMove : PickerState :=
  { initState with currentScroll := 24, lastTimestamp := some 300,
                   animating := true, scheduledFrames := 1 }

/-- The state on which the frame-500 callback body runs. -/
def c4EnteringLast : PickerState :=
  { initState with currentScroll := 24, lastTimestamp := some 300, animating := true }

/-- The final state of the C4 scenario. -/
def c4Final (cfg : PickerConfig) : PickerState :=
  { initState with currentScroll := 24, selectedItem := itemAt cfg.items 1,
                   events := [itemAt cfg.items 1] }

/-- C4: with 5 items, duration 180 and any easing pair fixing the endpoints
(`easing 0 = 0`, `easing 1 = 1`, `inverseEasing 0 = 0`), one ArrowDown sets
`pendingScroll` to 24, and running the frame loop to completion with
strictly increasing timestamps (100, 300, 500) ends with
`currentScroll = 24`, no pending displacement, a stopped loop, and exactly
one `select` event carrying the item at index 1. -/
theorem arrow_down_scenario (cfg : PickerConfig)
    (h5 : cfg.items.length = 5) (hdur : cfg.animationDuration = 180)
    (he0 : cfg.easingFunction 0 = 0) (he1 : cfg.easingFunction 1 = 1)
    (hi0 : cfg.inverseEasingFunction 0 = 0) :
    (onKeyDown initState Key.arrowDown).pendingScroll = 24
    ∧ (runEvents cfg initState c4Trace).map PickerState.currentScroll = some 24
    ∧ (runEvents cfg initState c4Trace).map PickerState.pendingScroll = some 0
    ∧ (runEvents cfg initState c4Trace).map PickerState.animating = some false
    ∧ (runEvents cfg initState c4Trace).map PickerState.events
        = some [itemAt cfg.items 1] := by
  have hkey : step cfg initState (.key .arrowDown) = some c4afterKey := by
    show some (onKeyDown initState Key.arrowDown) = some c4afterKey
    exact congrArg some (by decide)
  have hf0 : step cfg c4afterKey (.frame 100) = some c4afterBoot := by
    show (if 0 < c4afterKey.scheduledFrames then
        animatePhysics cfg
          { c4afterKey with scheduledFrames := c4afterKey.scheduledFrames - 1 } 100
      else some c4afterKey) = some c4afterBoot
    rw [if_pos (by decide), animatePhysics_bootstrap cfg _ 100 rfl]
    exact congrArg some (by decide)
  have hdx : frameDx cfg c4Entering (300 - 100) = 24 := by
    have hTval : shrunkenAnimationTime cfg c4Entering.pendingScroll = 180 := by
      unfold shrunkenAnimationTime
      rw [hdur]
      decide
    have hxval : scrollOffset c4Entering / ITEM_HEIGHT = 0 := by decide
    simp only [frameDx]
    rw [hTval, hxval, hi0, zero_mul]
    norm_num [min_def]
    rw [he1, he0]
    decide
  have hsettle : settlingStep cfg c4Entering 300 100 = c4afterMove := by
    simp only [settlingStep]
    rw [hdx, h5]
    decide
  have hf300 : step cfg c4afterBoot (.frame 300) = some c4afterMove := by
    show (if 0 < c4afterBoot.scheduledFrames then
        animatePhysics cfg
          { c4afterBoot with scheduledFrames := c4afterBoot.scheduledFrames - 1 } 300
      else some c4afterBoot) = some c4afterMove
    rw [if_pos (by decide),
      show ({ c4afterBoot with scheduledFrames := c4afterBoot.scheduledFrames - 1 } :
        PickerState) = c4Entering from by decide]
    have hcond : ¬((c4Entering.currentScroll = 0 ∧ c4Entering.pendingScroll < 0)
        ∨ (ITEM_HEIGHT * ((cfg.items.length : ℚ) - 1) ≤ c4Entering.currentScroll
            ∧ 0 < c4Entering.pendingScroll)) := by
      rw [h5]
      decide
    have hsent : sentinelAbsorb cfg c4Entering = c4Entering := by
      rw [sentinelAbsorb_eq, if_neg hcond]
    rw [animatePhysics_settling cfg c4Entering 300 100 rfl (by norm_num)
      (by rw [hsent]; decide) (by rw [hsent]; decide)]
    rw [hsent, hsettle]
  have hsome : (itemAt cfg.items 1).isSome = true := by
    unfold itemAt
    rw [if_pos (by norm_num)]
    rw [List.get?_eq_get (show (1 : ℤ).toNat < cfg.items.length by rw [h5]; decide)]
    rfl
  have hidx : selectedIndex c4EnteringLast = 1 := by decide
  have hf500 : step cfg c4afterMove (.frame 500) = some (c4Final cfg) := by
    show (if 0 < c4afterMove.scheduledFrames then
        animatePhysics cfg
          { c4afterMove with scheduledFrames := c4afterMove.scheduledFrames - 1 } 500
      else some c4afterMove) = some (c4Final cfg)
    rw [if_pos (by decide),
      show ({ c4afterMove with scheduledFrames := c4afterMove.scheduledFrames - 1 } :
        PickerState) = c4EnteringLast from by decide]
    have hcond : ¬((c4EnteringLast.currentScroll = 0 ∧ c4EnteringLast.pendingScroll < 0)
        ∨ (ITEM_HEIGHT * ((cfg.items.length : ℚ) - 1) ≤ c4EnteringLast.currentScroll
            ∧ 0 < c4EnteringLast.pendingScroll)) := by
      rw [h5]
      decide
    have hsent : sentinelAbsorb cfg c4EnteringLast = c4EnteringLast := by
      rw [sentinelAbsorb_eq, if_neg hcond]
    have hws : (isWheelStable (sentinelAbsorb cfg c4EnteringLast)).1 = true := by
      rw [hsent, isWheelStable_fst]
      decide
    rw [animatePhysics_stable cfg c4EnteringLast 500 300 rfl (by norm_num)
      (by rw [hsent]; decide) hws]
    rw [hsent,
      show (isWheelStable c4EnteringLast).2 = c4EnteringLast from by
        rw [isWheelStable_snd]; decide]
    refine congrArg some ?_
    have hemit : ¬c4EnteringLast.isExternalForceActive = true
        ∧ c4EnteringLast.selectedItem
            ≠ itemAt cfg.items (selectedIndex c4EnteringLast) := by
      constructor
      · decide
      · obtain ⟨v, hv⟩ := Option.isSome_iff_exists.mp hsome
        rw [hidx, hv]
        show (none : Option ℤ) ≠ some v
        simp
    simp only [onWheelStable]
    rw [if_pos hemit, stopAnimation_eq, hidx]
    rfl
  have hrun : runEvents cfg initState c4Trace = some (c4Final cfg) := by
    simp only [c4Trace, runEvents, hkey, hf0, hf300, hf500]
  refine ⟨by decide, ?_, ?_, ?_, ?_⟩ <;> rw [hrun] <;> rfl

theorem arrow_down_scenario_witness :
    (onKeyDown initState Key.arrowDown).pendingScroll = 24
    ∧ (runEvents idCfg initState c4Trace).map PickerState.currentScroll = some 24
    ∧ (runEvents idCfg initState c4Trace).map PickerState.pendingScroll = some 0
    ∧ (runEvents idCfg initState c4Trace).map PickerState.animating = some false
    ∧ (runEvents idCfg initState c4Trace).map PickerState.events
        = some [itemAt idCfg.items 1] :=
  arrow_down_scenario idCfg rfl rfl rfl rfl rfl
